import Mathlib

/-!
Verification development for the a2a-rust repository.

Shallow embedding of the A2A server request-handling pipeline:
the data model (Task, Message, PushNotificationConfig, AgentCard),
the in-memory stores, the push notification sender, the default
request handler, the gRPC capability gate, and the client-side
auth interceptor.  Pure Lean functions mirror the Rust methods;
stateful methods are modelled by explicit state passing, and the
async effects (HTTP dispatch, UUID generation, wall clock) are
modelled as explicit oracle parameters.
-/

namespace A2A

/-- Task lifecycle states (core_types.rs is not part of the extracted
sources; the variant set is the one named in the spec data model and
used throughout the extracted code). -/
inductive TaskState where
  | Submitted
  | Working
  | InputRequired
  | Completed
  | Canceled
  | Failed
  | Rejected
  | AuthRequired
  | Unknown
deriving DecidableEq, Repr

/-- Message role. -/
inductive Role where
  | User
  | Agent
deriving DecidableEq, Repr

/-- Message part: text, file or data, per the spec data model. -/
inductive Part where
  | text (s : String)
  | file (uri : String)
  | data (payload : String)
deriving DecidableEq, Repr

/-- A protocol message.  Modelled from the spec: core_types.rs is not in
the extracted sources; fields are the ones used by the extracted code
and listed in the spec data model. -/
structure Message where
  role : Role
  parts : List Part
  message_id : String
  task_id : Option String
  context_id : Option String
  kind : String
deriving DecidableEq, Repr

/-- An artifact: ordered parts keyed by artifact id. -/
structure Artifact where
  artifact_id : String
  name : Option String
  description : Option String
  parts : List Part
  last_chunk : Option Bool
deriving DecidableEq, Repr

/-- Task status: state plus optional message and optional timestamp
string. -/
structure TaskStatus where
  state : TaskState
  message : Option Message
  timestamp : Option String
deriving DecidableEq, Repr

/-- TaskStatus::new, as used by the handler: only the state is supplied,
the optional fields start absent. -/
def TaskStatus.new (s : TaskState) : TaskStatus :=
  { state := s, message := none, timestamp := none }

/-- The task aggregate, mirroring the row shape used by the extracted
stores (metadata is an opaque JSON map, modelled as key/value pairs). -/
structure Task where
  id : String
  context_id : String
  status : TaskStatus
  artifacts : Option (List Artifact)
  history : Option (List Message)
  metadata : Option (List (String × String))
  kind : String
deriving DecidableEq, Repr

/-- Nested push authentication descriptor (opaque to the claims). -/
structure PushAuthenticationInfo where
  schemes : List String
  credentials : Option String
deriving DecidableEq, Repr

/-- Push notification webhook configuration, mirroring
PushNotificationConfig as used in push_notification_config_store.rs. -/
structure PushNotificationConfig where
  id : Option String
  url : String
  token : Option String
  authentication : Option PushAuthenticationInfo
deriving DecidableEq, Repr

/-- The closed error set of the protocol (error.rs is not among the
extracted sources; the constructors mirror the helper calls used by the
extracted code and the closed list in the spec). -/
inductive A2AError where
  | InvalidRequest
  | InvalidParams
  | MethodNotFound
  | UnsupportedOperation (msg : String)
  | TaskNotFound
  | TaskNotCancelable
  | PushNotificationNotSupported
  | ContentTypeNotSupported
  | InvalidAgentResponse
  | AuthRequired
  | Internal (msg : String)
deriving DecidableEq, Repr

/-- A2AError::unsupported_operation helper. -/
def A2AError.unsupported_operation (msg : String) : A2AError :=
  A2AError.UnsupportedOperation msg

/-- A2AError::internal helper. -/
def A2AError.internal (msg : String) : A2AError :=
  A2AError.Internal msg

/-- A2AError::push_notification_not_supported helper. -/
def A2AError.push_notification_not_supported : A2AError :=
  A2AError.PushNotificationNotSupported

/-- Agent capabilities advertised on the card. -/
structure AgentCapabilities where
  streaming : Option Bool
  push_notifications : Option Bool
  state_transition_history : Option Bool
deriving DecidableEq, Repr

/-- API key location. -/
inductive APIKeyLocation where
  | Header
  | Query
  | Cookie
deriving DecidableEq, Repr

/-- Security scheme declared on the agent card (the variants used by the
extracted tests plus the ones listed in the spec data model). -/
inductive SecurityScheme where
  | HTTPAuth (scheme : String) (bearer_format : Option String) (description : Option String)
  | APIKey (name : String) (location : APIKeyLocation) (description : Option String)
  | OAuth2
  | OpenIdConnect (url : String)
  | MutualTLS
deriving DecidableEq, Repr

/-- A security requirement: every listed scheme id must be satisfied;
scopes are carried but unused by header injection. -/
abbrev SecurityRequirement := List (String × List String)

/-- The agent card (the fields consumed by the extracted handlers and
tests; maps are modelled as association lists). -/
structure AgentCard where
  name : String
  description : String
  url : String
  version : String
  default_input_modes : List String
  default_output_modes : List String
  capabilities : AgentCapabilities
  security_schemes : List (String × SecurityScheme)
  security : Option (List SecurityRequirement)
  supports_authenticated_extended_card : Option Bool
deriving DecidableEq, Repr

/-! ## Wall clock formatting

on_cancel_task stamps the status with chrono Utc::now().to_string().
The chrono Display implementation for a DateTime in Utc prints the
naive date-time ("YYYY-MM-DD HH:MM:SS[.frac]") followed by a space and
the offset name "UTC".  We model the instant as an explicit record and
the call as a pure formatting function of it. -/

/-- A wall-clock instant in UTC, the argument of the formatting calls. -/
structure UtcDateTime where
  year : Nat
  month : Nat
  day : Nat
  hour : Nat
  minute : Nat
  second : Nat
  nanos : Nat
deriving DecidableEq, Repr

/-- Zero-pad to two digits. -/
def pad2 (n : Nat) : String :=
  if n < 10 then "0" ++ toString n else toString n

/-- Zero-pad to four digits. -/
def pad4 (n : Nat) : String :=
  if n < 10 then "000" ++ toString n
  else if n < 100 then "00" ++ toString n
  else if n < 1000 then "0" ++ toString n
  else toString n

/-- Zero-pad to a given width (used for fractional seconds). -/
def padWidth (w n : Nat) : String :=
  let s := toString n
  let k := s.length
  if k < w then String.mk (List.replicate (w - k) '0') ++ s else s

/-- chrono prints fractional seconds only when non-zero, at millisecond,
microsecond or nanosecond precision depending on trailing zeros. -/
def frac_display (nanos : Nat) : String :=
  if nanos == 0 then ""
  else if nanos % 1000000 == 0 then "." ++ padWidth 3 (nanos / 1000000)
  else if nanos % 1000 == 0 then "." ++ padWidth 6 (nanos / 1000)
  else "." ++ padWidth 9 nanos

/-- chrono Utc::now().to_string(): Display of DateTime in Utc,
"YYYY-MM-DD HH:MM:SS[.frac] UTC". -/
def chrono_display_utc (t : UtcDateTime) : String :=
  pad4 t.year ++ "-" ++ pad2 t.month ++ "-" ++ pad2 t.day ++ " " ++
  pad2 t.hour ++ ":" ++ pad2 t.minute ++ ":" ++ pad2 t.second ++
  frac_display t.nanos ++ " UTC"

/-! ## RFC3339 date-time grammar

Decidable checker for the RFC3339 date-time production:
full-date "T" full-time, with "T"/"t" as the date/time separator and
an offset that is "Z"/"z" or a signed HH:MM. -/

/-- ASCII digit test. -/
def isDigitCh (c : Char) : Bool :=
  '0' ≤ c && c ≤ '9'

/-- The numeric offset or zulu suffix of an RFC3339 date-time. -/
def rfc3339_offset : List Char → Bool
  | ['Z'] => true
  | ['z'] => true
  | [s, h1, h2, ':', m1, m2] =>
    (s == '+' || s == '-') && isDigitCh h1 && isDigitCh h2 && isDigitCh m1 && isDigitCh m2
  | _ => false

/-- After the seconds field: optional fraction, then the offset. -/
def rfc3339_after_seconds (cs : List Char) : Bool :=
  match cs with
  | '.' :: rest =>
    let frac := rest.takeWhile isDigitCh
    !frac.isEmpty && rfc3339_offset (rest.dropWhile isDigitCh)
  | rest => rfc3339_offset rest

/-- The full RFC3339 date-time grammar on a character list. -/
def rfc3339_core : List Char → Bool
  | y1 :: y2 :: y3 :: y4 :: '-' :: mo1 :: mo2 :: '-' :: d1 :: d2 :: t ::
      h1 :: h2 :: ':' :: mi1 :: mi2 :: ':' :: s1 :: s2 :: rest =>
    isDigitCh y1 && isDigitCh y2 && isDigitCh y3 && isDigitCh y4 &&
    isDigitCh mo1 && isDigitCh mo2 && isDigitCh d1 && isDigitCh d2 &&
    (t == 'T' || t == 't') &&
    isDigitCh h1 && isDigitCh h2 && isDigitCh mi1 && isDigitCh mi2 &&
    isDigitCh s1 && isDigitCh s2 &&
    rfc3339_after_seconds rest
  | _ => false

/-- A string is an RFC3339 date-time. -/
def isRFC3339 (s : String) : Bool :=
  rfc3339_core s.toList

/-! ## Stores

The task store trait is implemented (in memory) in task_store.rs, which
is not among the extracted sources.  Modelled from the spec: the
in-memory task store is a mapping id to task with upsert save; we embed
the mapping as a function.  The push notification config store is
embedded from push_notification_config_store.rs
(InMemoryPushNotificationConfigStore over a map task_id to config
vector). -/

/-- In-memory task store state: a mapping from task id to task. -/
abbrev TaskStoreState := String → Option Task

/-- TaskStore::get. -/
def task_store_get (st : TaskStoreState) (task_id : String) : Option Task :=
  st task_id

/-- TaskStore::save: upsert by task id. -/
def task_store_save (st : TaskStoreState) (task : Task) : TaskStoreState :=
  fun k => if k == task.id then some task else st k

/-- Push config store state: a mapping from task id to its config
vector (a missing entry and an empty vector are indistinguishable to
every extracted reader, which uses unwrap_or_default). -/
abbrev PushConfigState := String → List PushNotificationConfig

/-- Replace the first config whose id matches (Vec position + indexed
assignment in set_info). -/
def replace_first_by_id :
    List PushNotificationConfig → String → PushNotificationConfig →
    List PushNotificationConfig
  | [], _, _ => []
  | c :: rest, cid, config =>
    if c.id == some cid then config :: rest
    else c :: replace_first_by_id rest cid config

/-- The per-task body of set_info: if the config carries an id that is
already present, replace the first occurrence in place, otherwise push
at the end. -/
def set_info_list (cs : List PushNotificationConfig)
    (config : PushNotificationConfig) : List PushNotificationConfig :=
  match config.id with
  | some cid =>
    if cs.any (fun c => c.id == some cid) then replace_first_by_id cs cid config
    else cs ++ [config]
  | none => cs ++ [config]

/-- InMemoryPushNotificationConfigStore::set_info. -/
def set_info (st : PushConfigState) (task_id : String)
    (config : PushNotificationConfig) : PushConfigState :=
  fun k => if k == task_id then set_info_list (st task_id) config else st k

/-- InMemoryPushNotificationConfigStore::get_info. -/
def get_info (st : PushConfigState) (task_id : String) :
    List PushNotificationConfig :=
  st task_id

/-- InMemoryPushNotificationConfigStore::delete_info: with a config id,
retain the configs whose id differs; without one, drop the whole
entry. -/
def delete_info (st : PushConfigState) (task_id : String)
    (config_id : Option String) : PushConfigState :=
  match config_id with
  | some cid =>
    fun k => if k == task_id then
        (st task_id).filter (fun c => !(c.id == some cid))
      else st k
  | none => fun k => if k == task_id then [] else st k

/-! ## Push notification sender

HttpPushNotificationSender::send_notification reads all configs for the
task, dispatches an HTTP POST per config, and aggregates.  Each
dispatch (dispatch_notification) yields a Bool (2xx success or not /
transport error); the HTTP outcome is modelled as an oracle from the
dispatched url and token.  The config store read is fallible (the SQL
variant can fail), so it enters as an Except argument. -/

/-- Outcome oracle for one HTTP dispatch: url and optional
X-A2A-Notification-Token header to success flag, mirroring the Bool
returned by dispatch_notification. -/
abbrev DispatchOracle := String → Option String → Bool

/-- HttpPushNotificationSender::send_notification, as a function of the
config store read result and the per-dispatch HTTP outcomes.  A store
read error propagates; dispatch failures only set the logged warning
flag and the aggregate result is success. -/
def send_notification (get_result : Except A2AError (List PushNotificationConfig))
    (dispatch : DispatchOracle) : Except A2AError Unit :=
  match get_result with
  | .error e => .error e
  | .ok configs =>
    if configs.isEmpty then .ok ()
    else
      let results := configs.map (fun config => dispatch config.url config.token)
      let _warned := results.any (fun r => !r)
      .ok ()

/-! ## Default request handler

DefaultRequestHandler holds a task store, an optional push config
store and an optional push sender.  The stores are embedded as state
threaded through each operation; the optional push sender is an oracle
returning the Except produced by PushNotificationSender::send_notification;
the two uuid::Uuid::new_v4() calls of on_message_send are explicit
fresh-string arguments. -/

/-- Behaviour of the configured push sender, if any. -/
abbrev PushSenderModel := Task → Except A2AError Unit

/-- The mutable state behind a DefaultRequestHandler: the task store
and the push config store contents. -/
structure HandlerState where
  tasks : TaskStoreState
  push_configs : PushConfigState

/-- tasks/get parameters (request_handler.rs is not among the extracted
sources; fields per the spec method table and the JSON-RPC tests:
id plus optional history_length). -/
structure TaskQueryParams where
  id : String
  history_length : Option Nat
deriving DecidableEq, Repr

/-- Plain task id parameters. -/
structure TaskIdParams where
  id : String
deriving DecidableEq, Repr

/-- message/send configuration (fields used by the extracted handler
and tests). -/
structure MessageSendConfiguration where
  push_notification_config : Option PushNotificationConfig
  blocking : Option Bool
  history_length : Option Nat
deriving DecidableEq, Repr

/-- message/send parameters. -/
structure MessageSendParams where
  message : Message
  configuration : Option MessageSendConfiguration
deriving DecidableEq, Repr

/-- Result of message/send: a task or a direct message. -/
inductive MessageSendResult where
  | Task (t : Task)
  | Message (m : Message)
deriving DecidableEq, Repr

/-- tasks/pushNotificationConfig/set parameters and echo result. -/
structure TaskPushNotificationConfig where
  task_id : String
  push_notification_config : PushNotificationConfig
deriving DecidableEq, Repr

/-- tasks/pushNotificationConfig/get parameters. -/
structure TaskPushNotificationConfigQueryParams where
  task_id : String
  push_notification_config_id : Option String
deriving DecidableEq, Repr

/-- DefaultRequestHandler::send_push_notification_if_needed: invoke the
sender when configured; an error is only logged, never propagated. -/
def send_push_notification_if_needed (sender : Option PushSenderModel)
    (task : Task) : Unit :=
  match sender with
  | none => ()
  | some s =>
    match s task with
    | .ok _ => ()
    | .error _ => ()

/-- DefaultRequestHandler::on_get_task: a bare task store read. -/
def on_get_task (st : HandlerState) (params : TaskQueryParams) :
    Except A2AError (Option Task) × HandlerState :=
  (.ok (task_store_get st.tasks params.id), st)

/-- DefaultRequestHandler::on_cancel_task: read the task; when present,
set its state to Canceled and its timestamp to the chrono Display of
now, save, fire the push notification, and return the updated task;
when absent return none. -/
def on_cancel_task (sender : Option PushSenderModel) (now : UtcDateTime)
    (st : HandlerState) (params : TaskIdParams) :
    Except A2AError (Option Task) × HandlerState :=
  match task_store_get st.tasks params.id with
  | none => (.ok none, st)
  | some task =>
    let task := { task with
      status := { task.status with
        state := TaskState.Canceled,
        timestamp := some (chrono_display_utc now) } }
    let st := { st with tasks := task_store_save st.tasks task }
    let _ := send_push_notification_if_needed sender task
    (.ok (some task), st)

/-- DefaultRequestHandler::on_message_send.  The two freshly generated
UUIDs are the arguments u1 and u2; has_config_store tells whether a
push config store is configured.  TaskManager::save_task_event with a
full Task event is modelled from the spec (task_manager.rs is not among
the extracted sources): a task snapshot replaces the current task and
is written through to the task store before returning it. -/
def on_message_send (sender : Option PushSenderModel)
    (has_config_store : Bool) (u1 u2 : String) (st : HandlerState)
    (params : MessageSendParams) :
    Except A2AError MessageSendResult × HandlerState :=
  let task_id := params.message.task_id.getD u1
  let context_id := params.message.context_id.getD u2
  let st1 :=
    if has_config_store then
      match params.configuration.bind (fun c => c.push_notification_config) with
      | some config =>
        { st with push_configs := set_info st.push_configs task_id config }
      | none => st
    else st
  let task : Task := {
    id := task_id,
    context_id := context_id,
    status := TaskStatus.new TaskState.Working,
    artifacts := none,
    history := some [params.message],
    metadata := none,
    kind := "task" }
  let st2 := { st1 with tasks := task_store_save st1.tasks task }
  let _ := send_push_notification_if_needed sender task
  (.ok (MessageSendResult.Task task), st2)

/-- DefaultRequestHandler::on_set_task_push_notification_config. -/
def on_set_task_push_notification_config (has_config_store : Bool)
    (st : HandlerState) (params : TaskPushNotificationConfig) :
    Except A2AError TaskPushNotificationConfig × HandlerState :=
  if has_config_store then
    ((.ok params),
     { st with push_configs :=
        set_info st.push_configs params.task_id params.push_notification_config })
  else
    (.error (A2AError.unsupported_operation
      "Push notification config store not configured"), st)

/-- DefaultRequestHandler::on_get_task_push_notification_config: the
first stored config for the task, an Internal error when none exists,
an UnsupportedOperation error when no store is configured. -/
def on_get_task_push_notification_config (has_config_store : Bool)
    (st : HandlerState) (params : TaskPushNotificationConfigQueryParams) :
    Except A2AError TaskPushNotificationConfig × HandlerState :=
  if has_config_store then
    match get_info st.push_configs params.task_id with
    | config :: _ => (.ok ⟨params.task_id, config⟩, st)
    | [] => (.error (A2AError.internal "Push notification config not found"), st)
  else
    (.error (A2AError.unsupported_operation
      "Push notification config store not configured"), st)

/-! ## gRPC handler and capability gate

GRPCHandler wraps the request handler with the agent-card capability
checks.  Streams are modelled as the list of emitted events; the inner
request handler methods that the adapter may delegate to are oracle
functions, so that the gate theorems quantify over every possible
underlying handler. -/

/-- Task status update stream event. -/
structure TaskStatusUpdateEvent where
  task_id : String
  context_id : String
  status : TaskStatus
  final : Bool
deriving DecidableEq, Repr

/-- Stream event. -/
inductive Event where
  | Task (t : Task)
  | TaskStatusUpdate (e : TaskStatusUpdateEvent)
deriving DecidableEq, Repr

/-- A streaming response: the ordered items of the event stream. -/
abbrev EventStream := List (Except A2AError Event)

/-- GRPCHandler::ensure_streaming_supported. -/
def ensure_streaming_supported (card : AgentCard) : Except A2AError Unit :=
  if !(card.capabilities.streaming.getD false) then
    .error (A2AError.unsupported_operation "Streaming is not supported by the agent")
  else .ok ()

/-- GRPCHandler::ensure_push_supported. -/
def ensure_push_supported (card : AgentCard) : Except A2AError Unit :=
  if !(card.capabilities.push_notifications.getD false) then
    .error A2AError.push_notification_not_supported
  else .ok ()

/-- GRPCHandler::handle_message_stream: gate on streaming capability,
then delegate to on_message_send_stream (an oracle here). -/
def handle_message_stream (card : AgentCard)
    (on_message_send_stream : MessageSendParams → Except A2AError EventStream)
    (params : MessageSendParams) : Except A2AError EventStream :=
  match ensure_streaming_supported card with
  | .error e => .error e
  | .ok _ => on_message_send_stream params

/-- GRPCHandler::handle_resubscribe_task: gate on streaming capability,
then delegate to on_resubscribe_to_task (an oracle here). -/
def handle_resubscribe_task (card : AgentCard)
    (on_resubscribe_to_task : TaskIdParams → Except A2AError EventStream)
    (params : TaskIdParams) : Except A2AError EventStream :=
  match ensure_streaming_supported card with
  | .error e => .error e
  | .ok _ => on_resubscribe_to_task params

/-- GRPCHandler::handle_set_push_notification_config: gate on the push
capability, then delegate to the default handler. -/
def handle_set_push_notification_config (card : AgentCard)
    (has_config_store : Bool) (st : HandlerState)
    (params : TaskPushNotificationConfig) :
    Except A2AError TaskPushNotificationConfig × HandlerState :=
  match ensure_push_supported card with
  | .error e => (.error e, st)
  | .ok _ => on_set_task_push_notification_config has_config_store st params

/-- GRPCHandler::handle_get_push_notification_config: NOT gated on the
push capability; delegates directly to the default handler. -/
def handle_get_push_notification_config (card : AgentCard)
    (has_config_store : Bool) (st : HandlerState)
    (params : TaskPushNotificationConfigQueryParams) :
    Except A2AError TaskPushNotificationConfig × HandlerState :=
  on_get_task_push_notification_config has_config_store st params

/-! ## Client-side auth interceptor

Modelled from the spec: client/auth.rs (AuthInterceptor and the
credential service) is not among the extracted sources, only its
integration test is.  The embedding follows the spec algorithm: take
the first security requirement of the card for which every scheme id
resolves and has a credential, apply all its credentials to the
transport kwargs, and otherwise return the kwargs unchanged.  The
kwargs map is modelled by its mutated fields: the nested headers
sub-map (created when absent) and the url string. -/

/-- Transport-level kwargs: the optional nested headers sub-map and the
optional url field. -/
structure HttpKwargs where
  headers : Option (List (String × String))
  url : Option String
deriving DecidableEq, Repr

/-- Empty kwargs map. -/
def HttpKwargs.empty : HttpKwargs :=
  { headers := none, url := none }

/-- Set a key in an association map, replacing an existing binding. -/
def assoc_set (m : List (String × String)) (k v : String) :
    List (String × String) :=
  if m.any (fun p => p.1 == k) then
    m.map (fun p => if p.1 == k then (k, v) else p)
  else m ++ [(k, v)]

/-- Look up a key in an association map. -/
def assoc_get (m : List (String × String)) (k : String) : Option String :=
  (m.find? (fun p => p.1 == k)).map (fun p => p.2)

/-- Mutate the headers sub-map inside kwargs, creating it if absent. -/
def set_header (kwargs : HttpKwargs) (name value : String) : HttpKwargs :=
  { kwargs with headers := some (assoc_set (kwargs.headers.getD []) name value) }

/-- Read a header from kwargs. -/
def header_get (kwargs : HttpKwargs) (name : String) : Option String :=
  assoc_get (kwargs.headers.getD []) name

/-- Append a query parameter to a url string. -/
def append_query (u name value : String) : String :=
  if u.toList.any (fun c => c == '?') then u ++ "&" ++ name ++ "=" ++ value
  else u ++ "?" ++ name ++ "=" ++ value

/-- Credential application per scheme, per the spec table: bearer and
basic HTTP auth and OAuth2 / OpenIdConnect inject an Authorization
header, API keys go to a header, the url query, or a cookie, and
MutualTLS mutates nothing (combinations the spec does not list leave
the kwargs unchanged). -/
def apply_credential (scheme : SecurityScheme) (cred : String)
    (kwargs : HttpKwargs) : HttpKwargs :=
  match scheme with
  | .HTTPAuth s _ _ =>
    if s == "bearer" then set_header kwargs "Authorization" ("Bearer " ++ cred)
    else if s == "basic" then set_header kwargs "Authorization" ("Basic " ++ cred)
    else kwargs
  | .APIKey name .Header _ => set_header kwargs name cred
  | .APIKey name .Query _ =>
    { kwargs with url := (kwargs.url.map (fun u => append_query u name cred)) }
  | .APIKey name .Cookie _ => set_header kwargs "Cookie" (name ++ "=" ++ cred)
  | .OAuth2 => set_header kwargs "Authorization" ("Bearer " ++ cred)
  | .OpenIdConnect _ => set_header kwargs "Authorization" ("Bearer " ++ cred)
  | .MutualTLS => kwargs

/-- The credential service: scheme id to credential, if any. -/
abbrev CredentialService := String → Option String

/-- Resolve a scheme id against the security_schemes map of the card. -/
def lookup_scheme (card : AgentCard) (sid : String) : Option SecurityScheme :=
  ((card.security_schemes.find? (fun p => p.1 == sid)).map (fun p => p.2))

/-- Resolve every scheme id of one requirement and fetch its
credential; none when any scheme id lacks a scheme or a credential. -/
def requirement_credentials (card : AgentCard) (creds : CredentialService)
    (req : SecurityRequirement) : Option (List (SecurityScheme × String)) :=
  req.foldr
    (fun p acc =>
      match acc, lookup_scheme card p.1, creds p.1 with
      | some rest, some scheme, some c => some ((scheme, c) :: rest)
      | _, _, _ => none)
    (some [])

/-- Apply every resolved credential of a satisfied requirement. -/
def apply_all (pairs : List (SecurityScheme × String)) (kwargs : HttpKwargs) :
    HttpKwargs :=
  pairs.foldl (fun kw p => apply_credential p.1 p.2 kw) kwargs

/-- Walk the ordered requirement list: the first fully satisfiable
requirement is applied; when none is, the kwargs are unchanged. -/
def intercept_requirements (creds : CredentialService) (card : AgentCard)
    (kwargs : HttpKwargs) : List SecurityRequirement → HttpKwargs
  | [] => kwargs
  | req :: rest =>
    match requirement_credentials card creds req with
    | some pairs => apply_all pairs kwargs
    | none => intercept_requirements creds card kwargs rest

/-- AuthInterceptor::intercept on the kwargs component: absent or empty
card security leaves the kwargs unchanged, otherwise the requirement
walk decides (the method name and payload are passed through untouched
and are omitted). -/
def intercept (creds : CredentialService) (card : AgentCard)
    (kwargs : HttpKwargs) : HttpKwargs :=
  match card.security with
  | none => kwargs
  | some reqs => intercept_requirements creds card kwargs reqs

/-! ## Concrete sample inputs -/

/-- A fixed instant, 2026-10-12 00:00:00 UTC. -/
def sample_now : UtcDateTime :=
  { year := 2026, month := 10, day := 12, hour := 0, minute := 0, second := 0, nanos := 0 }

/-- A stored task already in the terminal state Completed. -/
def sample_completed_task : Task :=
  { id := "task-1", context_id := "ctx-1",
    status := { state := TaskState.Completed, message := none, timestamp := none },
    artifacts := none, history := none, metadata := none, kind := "task" }

/-- Handler state holding only the completed task. -/
def sample_state : HandlerState :=
  { tasks := fun k => if k == "task-1" then some sample_completed_task else none,
    push_configs := fun _ => [] }

/-- A first history message. -/
def sample_msg1 : Message :=
  { role := Role.User, parts := [Part.text "hello"], message_id := "m-1",
    task_id := some "task-2", context_id := some "ctx-2", kind := "message" }

/-- A second history message. -/
def sample_msg2 : Message :=
  { role := Role.Agent, parts := [Part.text "world"], message_id := "m-2",
    task_id := some "task-2", context_id := some "ctx-2", kind := "message" }

/-- A stored working task with a two-message history. -/
def sample_history_task : Task :=
  { id := "task-2", context_id := "ctx-2",
    status := { state := TaskState.Working, message := none, timestamp := none },
    artifacts := none, history := some [sample_msg1, sample_msg2],
    metadata := none, kind := "task" }

/-- Handler state holding only the two-message-history task. -/
def sample_state2 : HandlerState :=
  { tasks := fun k => if k == "task-2" then some sample_history_task else none,
    push_configs := fun _ => [] }

/-- A message carrying neither task_id nor context_id. -/
def sample_msg_no_ids : Message :=
  { role := Role.User, parts := [Part.text "Hello"], message_id := "test-msg-123",
    task_id := none, context_id := none, kind := "message" }

/-- The completed sample task after the cancel transition the code
performs: state Canceled, timestamp stamped with the chrono Display of
the sample instant. -/
def sample_completed_task_after_cancel : Task :=
  { id := "task-1", context_id := "ctx-1",
    status := { state := TaskState.Canceled, message := none,
                timestamp := some (chrono_display_utc sample_now) },
    artifacts := none, history := none, metadata := none, kind := "task" }

/-! ## Claim theorems -/

/-- C1: the claim says tasks/cancel must leave every stored terminal
task unchanged (rejected or a no-op).  The code has no terminal-state
check: evaluated on a stored task in the terminal state Completed,
on_cancel_task transitions it to Canceled, persists the transition, and
returns the transitioned task. -/
theorem on_cancel_task_transitions_terminal_task :
    ((on_cancel_task none sample_now sample_state ⟨"task-1"⟩).1 =
      .ok (some sample_completed_task_after_cancel)) ∧
    ((task_store_get (on_cancel_task none sample_now sample_state ⟨"task-1"⟩).2.tasks
        "task-1").map (fun t => t.status.state) = some TaskState.Canceled) := by
  constructor <;> rfl

/-- C2 counterexample: with a stored task whose history has two
messages and a tasks/get call with history_length = 1, on_get_task
returns the full two-message history, so the returned history is not at
most the 1 most recent message: the trimming part of the claim fails. -/
theorem on_get_task_ignores_history_length_cex :
    ((on_get_task sample_state2 ⟨"task-2", some 1⟩).1 =
      .ok (some sample_history_task)) ∧
    ((sample_history_task.history.getD []).length = 2) ∧
    ¬((sample_history_task.history.getD []).length ≤ 1) := by
  refine ⟨rfl, rfl, by decide⟩

/-- C2 (amended): tasks/get is read-only and returns the stored task
unchanged; the supplied history_length is ignored, so the full stored
history is returned without trimming. -/
theorem on_get_task_read_only_no_trimming :
    ∀ (st : HandlerState) (id : String) (n₁ n₂ : Option Nat),
      (on_get_task st ⟨id, n₁⟩).1 = .ok (task_store_get st.tasks id) ∧
      (on_get_task st ⟨id, n₁⟩).2 = st ∧
      on_get_task st ⟨id, n₁⟩ = on_get_task st ⟨id, n₂⟩ :=
  fun _ _ _ _ => ⟨rfl, rfl, rfl⟩

/-- C3: push delivery is best-effort and its failures are never
surfaced: send_notification returns success for every combination of
per-dispatch HTTP outcomes whenever the config store read succeeds, and
the results of on_cancel_task and on_message_send do not depend on the
behaviour of the configured push sender. -/
theorem push_failures_never_surfaced :
    (∀ (configs : List PushNotificationConfig) (dispatch : DispatchOracle),
      send_notification (.ok configs) dispatch = .ok ()) ∧
    (∀ (s₁ s₂ : Option PushSenderModel) (now : UtcDateTime)
       (st : HandlerState) (p : TaskIdParams),
      on_cancel_task s₁ now st p = on_cancel_task s₂ now st p) ∧
    (∀ (s₁ s₂ : Option PushSenderModel) (b : Bool) (u1 u2 : String)
       (st : HandlerState) (p : MessageSendParams),
      on_message_send s₁ b u1 u2 st p = on_message_send s₂ b u1 u2 st p) := by
  refine ⟨?_, ?_, ?_⟩
  · intro configs dispatch
    cases configs <;> rfl
  · intro s₁ s₂ now st p
    rfl
  · intro s₁ s₂ b u1 u2 st p
    rfl

/-- C9: the claim says every status timestamp written by the handler is
RFC3339.  on_cancel_task stamps the cancelled task with the chrono
Display rendering of now, which uses a space separator and a trailing
" UTC" instead of the RFC3339 "T" and numeric/zulu offset: at the
sample instant the persisted timestamp is "2026-10-12 00:00:00 UTC",
which the RFC3339 grammar rejects. -/
theorem on_cancel_task_timestamp_not_rfc3339 :
    ((task_store_get (on_cancel_task none sample_now sample_state ⟨"task-1"⟩).2.tasks
        "task-1").bind (fun t => t.status.timestamp) =
      some "2026-10-12 00:00:00 UTC") ∧
    isRFC3339 "2026-10-12 00:00:00 UTC" = false ∧
    isRFC3339 "2026-10-12T00:00:00+00:00" = true := by
  refine ⟨rfl, rfl, rfl⟩

/-- The task on_message_send constructs from its params and the two
freshly generated ids. -/
def mk_send_task (u1 u2 : String) (params : MessageSendParams) : Task :=
  { id := params.message.task_id.getD u1,
    context_id := params.message.context_id.getD u2,
    status := TaskStatus.new TaskState.Working,
    artifacts := none,
    history := some [params.message],
    metadata := none,
    kind := "task" }

/-- on_message_send always succeeds with the Task variant holding the
constructed task. -/
lemma on_message_send_result (sender : Option PushSenderModel) (b : Bool)
    (u1 u2 : String) (st : HandlerState) (params : MessageSendParams) :
    (on_message_send sender b u1 u2 st params).1 =
      .ok (MessageSendResult.Task (mk_send_task u1 u2 params)) := rfl

/-- on_message_send writes the constructed task through to the task
store under its id. -/
lemma on_message_send_persists (sender : Option PushSenderModel) (b : Bool)
    (u1 u2 : String) (st : HandlerState) (params : MessageSendParams) :
    task_store_get (on_message_send sender b u1 u2 st params).2.tasks
      (params.message.task_id.getD u1) = some (mk_send_task u1 u2 params) := by
  simp [on_message_send, task_store_get, task_store_save, mk_send_task]

/-- C10: every successful on_message_send returns the Task variant of
MessageSendResult (never the Message variant), and the returned task is
in state Working with history exactly the single incoming message. -/
theorem on_message_send_returns_working_task :
    ∀ (sender : Option PushSenderModel) (b : Bool) (u1 u2 : String)
      (st : HandlerState) (params : MessageSendParams),
      ∃ t : Task,
        (on_message_send sender b u1 u2 st params).1 =
          .ok (MessageSendResult.Task t) ∧
        t.status.state = TaskState.Working ∧
        t.history = some [params.message] := by
  intro sender b u1 u2 st params
  exact ⟨mk_send_task u1 u2 params,
    on_message_send_result sender b u1 u2 st params, rfl, rfl⟩

/-- C7: the auto-id policy of message/send.  When the incoming message
carries neither task_id nor context_id, the created and persisted task
carries exactly the two freshly generated UUIDs; when the message
supplies them, the supplied ids are used unchanged. -/
theorem on_message_send_auto_id_policy :
    ∀ (sender : Option PushSenderModel) (b : Bool) (u1 u2 : String)
      (st : HandlerState) (params : MessageSendParams),
      (params.message.task_id = none → params.message.context_id = none →
        ∃ t : Task,
          (on_message_send sender b u1 u2 st params).1 =
            .ok (MessageSendResult.Task t) ∧
          t.id = u1 ∧ t.context_id = u2 ∧
          task_store_get (on_message_send sender b u1 u2 st params).2.tasks u1 =
            some t) ∧
      (∀ a c : String,
        params.message.task_id = some a → params.message.context_id = some c →
        ∃ t : Task,
          (on_message_send sender b u1 u2 st params).1 =
            .ok (MessageSendResult.Task t) ∧
          t.id = a ∧ t.context_id = c ∧
          task_store_get (on_message_send sender b u1 u2 st params).2.tasks a =
            some t) := by
  intro sender b u1 u2 st params
  constructor
  · intro h1 h2
    refine ⟨mk_send_task u1 u2 params,
      on_message_send_result sender b u1 u2 st params, ?_, ?_, ?_⟩
    · simp [mk_send_task, h1]
    · simp [mk_send_task, h2]
    · have h := on_message_send_persists sender b u1 u2 st params
      rw [h1] at h
      simpa using h
  · intro a c h1 h2
    refine ⟨mk_send_task u1 u2 params,
      on_message_send_result sender b u1 u2 st params, ?_, ?_, ?_⟩
    · simp [mk_send_task, h1]
    · simp [mk_send_task, h2]
    · have h := on_message_send_persists sender b u1 u2 st params
      rw [h1] at h
      simpa using h

/-- C7 witness: at a concrete message with no ids, the generated UUIDs
become the ids of the returned and persisted task. -/
theorem on_message_send_auto_id_policy_witness :
    ∃ t : Task,
      (on_message_send none true "uuid-a" "uuid-b"
        { tasks := fun _ => none, push_configs := fun _ => [] }
        ⟨sample_msg_no_ids, none⟩).1 = .ok (MessageSendResult.Task t) ∧
      t.id = "uuid-a" ∧ t.context_id = "uuid-b" ∧
      task_store_get (on_message_send none true "uuid-a" "uuid-b"
        { tasks := fun _ => none, push_configs := fun _ => [] }
        ⟨sample_msg_no_ids, none⟩).2.tasks "uuid-a" = some t :=
  (on_message_send_auto_id_policy none true "uuid-a" "uuid-b"
    { tasks := fun _ => none, push_configs := fun _ => [] }
    ⟨sample_msg_no_ids, none⟩).1 rfl rfl

/-- C4: tasks/pushNotificationConfig/get is not capability-gated: under
every card that does not advertise push_notifications = true, the get
handler still succeeds for a task with an existing stored config, while
the set handler under the same card fails with
PushNotificationNotSupported before reaching the request handler. -/
theorem push_config_get_not_gated :
    ∀ (card : AgentCard) (st : HandlerState) (tid : String)
      (c : PushNotificationConfig) (rest : List PushNotificationConfig)
      (cid : Option String),
      card.capabilities.push_notifications.getD false = false →
      get_info st.push_configs tid = c :: rest →
      ((handle_get_push_notification_config card true st ⟨tid, cid⟩).1 =
        .ok ⟨tid, c⟩) ∧
      (∀ p : TaskPushNotificationConfig,
        (handle_set_push_notification_config card true st p).1 =
          .error A2AError.PushNotificationNotSupported) := by
  intro card st tid c rest cid h1 h2
  constructor
  · simp [handle_get_push_notification_config,
      on_get_task_push_notification_config, h2]
  · intro p
    simp [handle_set_push_notification_config, ensure_push_supported,
      A2AError.push_notification_not_supported, h1]

/-- A card whose capabilities are all unset, as built by the extracted
tests (AgentCapabilities::new). -/
def sample_card_nocaps : AgentCard :=
  { name := "Test Agent", description := "A test agent for testing",
    url := "http://localhost:8080", version := "1.0.0",
    default_input_modes := [], default_output_modes := [],
    capabilities := { streaming := none, push_notifications := none,
                      state_transition_history := none },
    security_schemes := [], security := none,
    supports_authenticated_extended_card := none }

/-- A stored push config, the one of the encrypted round-trip
scenario. -/
def sample_push_config : PushNotificationConfig :=
  { id := some "config-1", url := "https://example.com/push",
    token := some "secret-token-789", authentication := none }

/-- Handler state whose push config store holds one config under
task-push-123. -/
def sample_push_state : HandlerState :=
  { tasks := fun _ => none,
    push_configs := fun k => if k == "task-push-123" then [sample_push_config] else [] }

/-- C4 witness: at the concrete no-capability card and the concrete
stored config, get succeeds and set fails. -/
theorem push_config_get_not_gated_witness :
    ((handle_get_push_notification_config sample_card_nocaps true
        sample_push_state ⟨"task-push-123", none⟩).1 =
      .ok ⟨"task-push-123", sample_push_config⟩) ∧
    ((handle_set_push_notification_config sample_card_nocaps true
        sample_push_state ⟨"task-push-123", sample_push_config⟩).1 =
      .error A2AError.PushNotificationNotSupported) :=
  ⟨(push_config_get_not_gated sample_card_nocaps sample_push_state
      "task-push-123" sample_push_config [] none rfl rfl).1,
   (push_config_get_not_gated sample_card_nocaps sample_push_state
      "task-push-123" sample_push_config [] none rfl rfl).2
     ⟨"task-push-123", sample_push_config⟩⟩

/-- C6: the streaming capability gate.  Under every card that does not
advertise streaming = true, handle_message_stream and
handle_resubscribe_task fail with UnsupportedOperation carrying the
exact message, for every underlying request handler, so the underlying
on_message_send_stream / on_resubscribe_to_task is never invoked: the
outcome is the same error whatever that handler would do. -/
theorem streaming_capability_gate :
    ∀ (card : AgentCard),
      card.capabilities.streaming.getD false = false →
      (∀ (inner : MessageSendParams → Except A2AError EventStream)
         (p : MessageSendParams),
        handle_message_stream card inner p =
          .error (A2AError.UnsupportedOperation
            "Streaming is not supported by the agent")) ∧
      (∀ (inner : TaskIdParams → Except A2AError EventStream)
         (p : TaskIdParams),
        handle_resubscribe_task card inner p =
          .error (A2AError.UnsupportedOperation
            "Streaming is not supported by the agent")) := by
  intro card h1
  constructor
  · intro inner p
    simp [handle_message_stream, ensure_streaming_supported,
      A2AError.unsupported_operation, h1]
  · intro inner p
    simp [handle_resubscribe_task, ensure_streaming_supported,
      A2AError.unsupported_operation, h1]

/-- C6 witness: at the concrete card with unset streaming capability
and a concrete underlying handler, both streaming entry points return
the UnsupportedOperation error. -/
theorem streaming_capability_gate_witness :
    (handle_message_stream sample_card_nocaps (fun _ => .ok [])
        ⟨sample_msg_no_ids, none⟩ =
      .error (A2AError.UnsupportedOperation
        "Streaming is not supported by the agent")) ∧
    (handle_resubscribe_task sample_card_nocaps (fun _ => .ok [])
        ⟨"task-1"⟩ =
      .error (A2AError.UnsupportedOperation
        "Streaming is not supported by the agent")) :=
  ⟨(streaming_capability_gate sample_card_nocaps rfl).1
      (fun _ => .ok []) ⟨sample_msg_no_ids, none⟩,
   (streaming_capability_gate sample_card_nocaps rfl).2
      (fun _ => .ok []) ⟨"task-1"⟩⟩

/-- A list none of whose elements satisfies the predicate filters to
nil. -/
lemma filter_eq_nil_of_any_false {α : Type} (p : α → Bool) :
    ∀ cs : List α, cs.any p = false → cs.filter p = [] := by
  intro cs
  induction cs with
  | nil => intro _; rfl
  | cons c rest ih =>
    intro h
    simp only [List.any_cons, Bool.or_eq_false_iff] at h
    simp [List.filter_cons, h.1, ih h.2]

/-- Replacing the first id-matching config in a list that holds at most
one match leaves exactly the replacement as the id-matching content. -/
lemma replace_first_by_id_filter (X : String) (c : PushNotificationConfig)
    (hc : c.id = some X) :
    ∀ cs : List PushNotificationConfig,
      (cs.filter (fun d => d.id == some X)).length ≤ 1 →
      cs.any (fun d => d.id == some X) = true →
      (replace_first_by_id cs X c).filter (fun d => d.id == some X) = [c] := by
  intro cs
  induction cs with
  | nil => intro _ h; simp at h
  | cons d rest ih =>
    intro hlen hany
    by_cases hd : (d.id == some X) = true
    · have h1 : ((d :: rest).filter (fun d => d.id == some X)) =
          d :: rest.filter (fun d => d.id == some X) := by
        simp [List.filter_cons, hd]
      rw [h1, List.length_cons] at hlen
      have hrest : rest.filter (fun d => d.id == some X) = [] :=
        List.length_eq_zero.mp (Nat.le_zero.mp (Nat.succ_le_succ_iff.mp hlen))
      simp [replace_first_by_id, hd, List.filter_cons, hc, hrest]
    · simp only [Bool.not_eq_true] at hd
      have h1 : ((d :: rest).filter (fun d => d.id == some X)) =
          rest.filter (fun d => d.id == some X) := by
        simp [List.filter_cons, hd]
      rw [h1] at hlen
      simp only [List.any_cons, hd, Bool.false_or] at hany
      simp [replace_first_by_id, hd, List.filter_cons, ih hlen hany]

/-- The per-task set_info body: setting a config whose id already
occurs (at most once) leaves exactly the new config under that id. -/
lemma set_info_list_filter (X : String) (c : PushNotificationConfig)
    (hc : c.id = some X) (cs : List PushNotificationConfig)
    (hlen : (cs.filter (fun d => d.id == some X)).length ≤ 1) :
    (set_info_list cs c).filter (fun d => d.id == some X) = [c] := by
  rw [set_info_list, hc]
  by_cases hany : (cs.any (fun d => d.id == some X)) = true
  · simp only [hany, if_true]
    exact replace_first_by_id_filter X c hc cs hlen hany
  · have hany' : cs.any (fun d => d.id == some X) = false := by
      simpa using hany
    simp [hany', List.filter_append,
      filter_eq_nil_of_any_false _ cs hany', List.filter_cons, hc]

/-- C5: push config set-by-id replacement.  Setting twice under the
same id X (on a store that, like every store reachable through the set
API, holds at most one config under X) leaves exactly one config with
id X, equal to the second call; a set whose id is absent, or matches no
existing config, appends instead. -/
theorem set_info_replace_or_append :
    (∀ (st : PushConfigState) (tid : String)
       (c₁ c₂ : PushNotificationConfig) (X : String),
      c₁.id = some X → c₂.id = some X →
      ((get_info st tid).filter (fun d => d.id == some X)).length ≤ 1 →
      (get_info (set_info (set_info st tid c₁) tid c₂) tid).filter
          (fun d => d.id == some X) = [c₂]) ∧
    (∀ (st : PushConfigState) (tid : String) (c : PushNotificationConfig),
      c.id = none →
      get_info (set_info st tid c) tid = get_info st tid ++ [c]) ∧
    (∀ (st : PushConfigState) (tid : String) (c : PushNotificationConfig)
       (X : String),
      c.id = some X →
      (get_info st tid).any (fun d => d.id == some X) = false →
      get_info (set_info st tid c) tid = get_info st tid ++ [c]) := by
  refine ⟨?_, ?_, ?_⟩
  · intro st tid c₁ c₂ X h1 h2 hlen
    have e : get_info (set_info (set_info st tid c₁) tid c₂) tid =
        set_info_list (set_info_list (st tid) c₁) c₂ := by
      simp [get_info, set_info]
    rw [e]
    have mid := set_info_list_filter X c₁ h1 (st tid) hlen
    have hlen2 : ((set_info_list (st tid) c₁).filter
        (fun d => d.id == some X)).length ≤ 1 := by
      rw [mid]; exact Nat.le_refl 1
    exact set_info_list_filter X c₂ h2 (set_info_list (st tid) c₁) hlen2
  · intro st tid c hc
    simp [get_info, set_info, set_info_list, hc]
  · intro st tid c X hc hany
    have e : get_info (set_info st tid c) tid = set_info_list (st tid) c := by
      simp [get_info, set_info]
    have hany' : (st tid).any (fun d => d.id == some X) = false := hany
    rw [e]
    simp only [set_info_list, hc]
    rw [hany']
    simp [get_info]

/-- First version of a config under id config-X. -/
def sample_cfg_v1 : PushNotificationConfig :=
  { id := some "config-X", url := "https://example.com/hook1",
    token := none, authentication := none }

/-- Second version under the same id, with differing fields. -/
def sample_cfg_v2 : PushNotificationConfig :=
  { id := some "config-X", url := "https://example.com/hook2",
    token := some "tok-2", authentication := none }

/-- An anonymous config (no id). -/
def sample_cfg_anon : PushNotificationConfig :=
  { id := none, url := "https://example.com/hook3",
    token := none, authentication := none }

/-- C5 witness: from the empty store, setting v1 then v2 under
config-X leaves exactly v2 under that id, and setting an anonymous
config appends. -/
theorem set_info_replace_or_append_witness :
    ((get_info (set_info (set_info (fun _ => []) "task-5" sample_cfg_v1)
        "task-5" sample_cfg_v2) "task-5").filter
        (fun d => d.id == some "config-X") = [sample_cfg_v2]) ∧
    (get_info (set_info (fun _ => []) "task-5" sample_cfg_anon) "task-5" =
      [] ++ [sample_cfg_anon]) :=
  ⟨set_info_replace_or_append.1 (fun _ => []) "task-5"
      sample_cfg_v1 sample_cfg_v2 "config-X" rfl rfl (by decide),
   set_info_replace_or_append.2.1 (fun _ => []) "task-5" sample_cfg_anon rfl⟩

/-- C8: bearer auth injection.  For every card whose first listed
security requirement names a scheme id resolving to HTTPAuth with
scheme "bearer", and every credential service returning a credential
for that scheme id, the interceptor invoked with empty kwargs returns
kwargs whose headers sub-map binds Authorization to "Bearer " followed
by the credential. -/
theorem auth_bearer_injection :
    ∀ (creds : CredentialService) (card : AgentCard) (sid cred : String)
      (bf d : Option String) (scopes : List String)
      (rest : List SecurityRequirement),
      card.security = some ([(sid, scopes)] :: rest) →
      lookup_scheme card sid = some (SecurityScheme.HTTPAuth "bearer" bf d) →
      creds sid = some cred →
      header_get (intercept creds card HttpKwargs.empty) "Authorization" =
        some ("Bearer " ++ cred) := by
  intro creds card sid cred bf d scopes rest h1 h2 h3
  simp [intercept, h1, intercept_requirements, requirement_credentials,
    h2, h3, apply_all, apply_credential, set_header, header_get,
    assoc_set, assoc_get, HttpKwargs.empty]

/-- The agent card of the auth integration test: a bearer scheme and an
API key scheme, with a single security requirement naming the bearer
scheme. -/
def sample_bearer_card : AgentCard :=
  { name := "Secure Agent", description := "An agent requiring authentication",
    url := "http://localhost:8080", version := "1.0.0",
    default_input_modes := [], default_output_modes := [],
    capabilities := { streaming := none, push_notifications := none,
                      state_transition_history := none },
    security_schemes :=
      [("bearerAuth",
        SecurityScheme.HTTPAuth "bearer" (some "JWT") (some "Main authentication")),
       ("apiKeyAuth",
        SecurityScheme.APIKey "X-Custom-Key" APIKeyLocation.Header
          (some "Secondary authentication"))],
    security := some [[("bearerAuth", [])]],
    supports_authenticated_extended_card := none }

/-- The scripted credential service of the auth integration test. -/
def sample_cred_service : CredentialService :=
  fun sid =>
    if sid == "bearerAuth" then some "my-secret-jwt-token"
    else if sid == "apiKeyAuth" then some "my-api-key"
    else none

/-- C8 witness: at the test card and credential store, intercepting
empty kwargs yields Authorization = "Bearer my-secret-jwt-token". -/
theorem auth_bearer_injection_witness :
    header_get (intercept sample_cred_service sample_bearer_card
      HttpKwargs.empty) "Authorization" = some "Bearer my-secret-jwt-token" :=
  auth_bearer_injection sample_cred_service sample_bearer_card
    "bearerAuth" "my-secret-jwt-token" (some "JWT") (some "Main authentication")
    [] [] rfl rfl rfl

end A2A
